import Mathlib

/-!
Verification of the incremental semantic graph engine of the
embedding-universe repository.

The repository contains several near-duplicate variants of one page
component.  Two of them carry all the algorithmic content referenced by the
claims:

* the planar variant (src/unnamed/part_001): 2-D pan/zoom view, topology cap
  of 8 edges, wheel zoom clamped to [0.1, 4], a full clearAll that resets the
  mutable refs, the d3 working set and the React render state;
* the volumetric variant (src/app/page.tsx, duplicated in
  src/unnamed/part_002): 3-D orbit camera, topology cap of 6 edges, wheel
  zoom clamped to [0.5, 3], per-frame projection and depth sorting, and a
  Clear Universe button that only empties the React render state.

Numbers are embedded as rationals.  The asynchronous embedding provider is
embedded as an explicit result value of type Except String (List Rat); an
addWord call is split into its synchronous prefix (the guards, before the
await) and its continuation (everything after the await), so that operations
that interleave with the pending provider call, such as clearAll, can be
expressed by running them between the two phases.
-/

/-- A node of the semantic graph, following the WordNode interface of the
volumetric variant (src/app/page.tsx).  The planar variant uses the same
record minus the depth coordinate and the per-frame render cache; for it the
extra fields simply stay at their creation defaults (the spec treats the
planar z as implicitly 0).  The render-cache fields screenX, screenY, scale
and depth are recomputed each frame by the projection step. -/
structure WordNode where
  id : String
  text : String
  embedding : List ℚ
  color : String
  x : ℚ := 0
  y : ℚ := 0
  z : ℚ := 0
  screenX : ℚ := 0
  screenY : ℚ := 0
  scale : ℚ := 1
  depth : ℚ := 0
deriving DecidableEq

/-- An edge, following the Connection interface: endpoint ids, the cosine
similarity stored as the edge weight at creation time, and the identity key
built from the two ids. -/
structure Connection where
  source : String
  target : String
  similarity : ℚ
  id : String
deriving DecidableEq

/-- An entry of the candidate list built by addWord before sorting: the id of
an existing node together with its similarity to the new embedding. -/
structure Candidate where
  id : String
  similarity : ℚ
deriving DecidableEq

/-- The fixed cyclic color palette COLORS shared by all variants. -/
def COLORS : List String :=
  ["#C084FC", "#22D3EE", "#34D399", "#FBBF24", "#F87171", "#F472B6",
   "#818CF8", "#A3E635", "#FB923C", "#2DD4BF", "#60A5FA", "#A78BFA"]

/-- cosineSimilarity from the source: a plain dot product (the embedding
provider returns unit-normalized vectors).  The source loops dot += a[i]*b[i]
over the indices of a; for the equal-dimension vectors of the contract this
is the sum of the pointwise products. -/
def cosineSimilarity (a b : List ℚ) : ℚ :=
  (List.zipWith (· * ·) a b).sum

/-- Embeds the guard expression !text.trim() of addWord: a JavaScript string
trims to the empty string exactly when every character is whitespace.  The
test is phrased on the underlying character list so that it evaluates by
kernel reduction. -/
def trimEmpty (s : String) : Bool :=
  s.data.all Char.isWhitespace

/-- Embeds text.toLowerCase() as used by the duplicate guard of addWord:
JavaScript lowercases the string character by character; we produce the
lowercased character list directly so that the comparison evaluates by
kernel reduction. -/
def lowerKey (s : String) : List Char :=
  s.data.map Char.toLower

/-- The candidate list of addWord: one entry per existing node, carrying the
cosine similarity of the new embedding against that node. -/
def mkCandidates (embedding : List ℚ) (existing : List WordNode) : List Candidate :=
  existing.map fun e => { id := e.id, similarity := cosineSimilarity embedding e.embedding }

/-- The ordering used by candidates.sort((a, b) => b.similarity - a.similarity):
a may precede b exactly when the comparator is nonpositive, that is when
b.similarity is at most a.similarity (descending order). -/
def candRel : Candidate → Candidate → Prop :=
  fun a b => b.similarity ≤ a.similarity

instance : DecidableRel candRel :=
  fun a b => inferInstanceAs (Decidable (b.similarity ≤ a.similarity))

instance : IsTotal Candidate candRel :=
  ⟨fun a b => le_total b.similarity a.similarity⟩

instance : IsTrans Candidate candRel :=
  ⟨fun _ _ _ hab hbc => le_trans hbc hab⟩

/-- candidates.sort((a, b) => b.similarity - a.similarity).  ECMAScript sort
is required to be stable, so the embedding uses a stable sort under the
comparator relation candRel: equal-similarity candidates keep their relative
(insertion) order. -/
def sortCandidates (l : List Candidate) : List Candidate :=
  l.insertionSort candRel

/-- The selection body of candidates.filter((c, index) =>
(index < 3 || c.similarity > 0.45) && index < cap), as a predicate on an
(index, candidate) pair.  The cap is 6 in the volumetric variant and 8 in
the planar variant. -/
def connPred (cap : ℕ) (p : ℕ × Candidate) : Bool :=
  (decide (p.1 < 3) || decide ((45 : ℚ)/100 < p.2.similarity)) && decide (p.1 < cap)

/-- connectionsToMake: filter the sorted candidate list with its 0-based
ranks through connPred. -/
def connectionsToMake (cap : ℕ) (sorted : List Candidate) : List Candidate :=
  (sorted.enum.filter (connPred cap)).map Prod.snd

/-- newLinks: one Connection per selected candidate, from the existing node
to the new node, weighted with the similarity computed at creation time and
keyed by the concatenated ids. -/
def newLinks (newId : String) (conns : List Candidate) : List Connection :=
  conns.map fun c =>
    { source := c.id, target := newId, similarity := c.similarity,
      id := c.id ++ "-" ++ newId }

namespace Planar

/-- The ViewState of the planar variant: pan offset and zoom scale. -/
structure ViewState where
  x : ℚ
  y : ℚ
  scale : ℚ
deriving DecidableEq

/-- The state of the planar variant that the claims touch: the mutable
refs nodesRef/linksRef (the canonical collections), the d3 simulation
working set, the React render state synced on every simulation tick, the
input box, the error banner, the loading and physicsActive flags, the
simulation energy alpha and the camera ViewState. -/
structure State where
  nodes : List WordNode
  links : List Connection
  simNodes : List WordNode
  simLinks : List Connection
  renderNodes : List WordNode
  renderLinks : List Connection
  inputText : String
  error : String
  loading : Bool
  physicsActive : Bool
  alpha : ℚ
  hoveredWord : Option String
  view : ViewState
deriving DecidableEq

/-- The initial state of the planar component. -/
def init : State :=
  { nodes := [], links := [], simNodes := [], simLinks := [],
    renderNodes := [], renderLinks := [], inputText := "", error := "",
    loading := false, physicsActive := false, alpha := 1,
    hoveredWord := none, view := { x := 0, y := 0, scale := 1 } }

/-- How far the synchronous prefix of addWord got: returned on blank input,
returned on a case-insensitive duplicate, or proceeded to call the embedding
provider. -/
inductive StartOutcome where
  | emptyInput
  | duplicate
  | pendingEmbed
deriving DecidableEq

/-- The synchronous prefix of addWord, up to the await of getEmbedding:
blank input returns with no state change at all; a case-insensitive
duplicate clears only the input box and returns; otherwise loading is set,
the error banner is cleared, physicsActive is set, and the provider call is
issued. -/
def addWordStart (s : State) (text : String) : StartOutcome × State :=
  if trimEmpty text then
    (.emptyInput, s)
  else if s.nodes.any (fun w => decide (lowerKey w.text = lowerKey text)) then
    (.duplicate, { s with inputText := "" })
  else
    (.pendingEmbed, { s with loading := true, error := "", physicsActive := true })

/-- The continuation of addWord after the awaited provider call resolves,
run against the state current at resolution time.  On a rejection the catch
block sets the error banner and the finally block clears loading, touching
nothing else.  On success the new node (cap 8 topology) and its links are
pushed into the refs, the d3 simulation is resynchronized with both refs and
re-heated to alpha 1, and the input box is cleared.  newId stands for the
Date.now timestamp id and ix, iy for the random initial position. -/
def addWordResume (s : State) (text newId : String) (ix iy : ℚ)
    (result : Except String (List ℚ)) : State :=
  match result with
  | .error _ => { s with error := "Failed to generate embedding.", loading := false }
  | .ok embedding =>
      let color := COLORS.getD (s.nodes.length % COLORS.length) ""
      let newWord : WordNode :=
        { id := newId, text := text, embedding := embedding, color := color,
          x := ix, y := iy }
      let conns := connectionsToMake 8 (sortCandidates (mkCandidates embedding s.nodes))
      let nodes' := s.nodes ++ [newWord]
      let links' := s.links ++ newLinks newId conns
      { s with nodes := nodes', links := links', simNodes := nodes',
               simLinks := links', alpha := 1, inputText := "", loading := false }

/-- A whole addWord call with no operation interleaved during the await.
The Bool records whether the embedding provider was called. -/
def addWord (s : State) (text newId : String) (ix iy : ℚ)
    (result : Except String (List ℚ)) : State × Bool :=
  match addWordStart s text with
  | (.pendingEmbed, s₁) => (addWordResume s₁ text newId ix iy result, true)
  | (_, s₁) => (s₁, false)

/-- The d3 tick handler: the React render state is replaced by fresh copies
of the mutable refs (the tick itself additionally advances node positions,
which no claim concerns; the collections are copied unchanged). -/
def tick (s : State) : State :=
  { s with renderNodes := s.nodes, renderLinks := s.links }

/-- resetView: recenter the pan to the container center and set the scale to
0.8. -/
def resetView (cw ch : ℚ) (s : State) : State :=
  { s with view := { x := cw/2, y := ch/2, scale := 8/10 } }

/-- clearAll of the planar variant: empty the refs, resynchronize the d3
simulation with the now-empty refs, empty the React render state, drop the
hover and reset the view. -/
def clearAll (cw ch : ℚ) (s : State) : State :=
  resetView cw ch
    { s with nodes := [], links := [], simNodes := [], simLinks := [],
             renderNodes := [], renderLinks := [], hoveredWord := none }

/-- handleWheel of the planar variant: multiplicative zoom step 0.9 or 1.1
by wheel direction, clamped to [0.1, 4], with the pan recentered so that the
viewport center stays fixed. -/
def handleWheel (deltaYpos : Bool) (cw ch : ℚ) (v : ViewState) : ViewState :=
  let delta : ℚ := if deltaYpos then 9/10 else 11/10
  let newScale := max (1/10) (min 4 (v.scale * delta))
  let centerX := cw/2
  let centerY := ch/2
  { x := centerX - (centerX - v.x) * (newScale / v.scale),
    y := centerY - (centerY - v.y) * (newScale / v.scale),
    scale := newScale }

/-- The ZoomIn button of the planar variant: scale is multiplied by 1.2 with
no clamp. -/
def zoomInButton (v : ViewState) : ViewState :=
  { v with scale := v.scale * (6/5) }

/-- A discrete zoom event of the planar variant: a wheel step in either
direction, or a press of the ZoomIn button. -/
inductive ZoomEvent where
  | wheel (deltaYpos : Bool)
  | button
deriving DecidableEq

/-- Apply one zoom event to the view state. -/
def applyZoom (cw ch : ℚ) (v : ViewState) : ZoomEvent → ViewState
  | .wheel d => handleWheel d cw ch v
  | .button => zoomInButton v

/-- Apply a finite sequence of zoom events in order. -/
def applyZooms (cw ch : ℚ) (evs : List ZoomEvent) (v : ViewState) : ViewState :=
  evs.foldl (applyZoom cw ch) v

end Planar

namespace Vol

/-- The camera of the volumetric variant: orbit angles and zoom. -/
structure Camera where
  angleX : ℚ
  angleY : ℚ
  zoom : ℚ
deriving DecidableEq

/-- The trigonometric values of the camera angles.  The source calls
Math.cos and Math.sin on angleX and angleY inside rotate3D; the embedding
works over rationals, so the four values are taken as inputs (a quantifier
over them covers every possible pair of camera angles). -/
structure Trig where
  cosX : ℚ
  sinX : ℚ
  cosY : ℚ
  sinY : ℚ
deriving DecidableEq

/-- A point in simulation space. -/
structure Vec3 where
  x : ℚ
  y : ℚ
  z : ℚ
deriving DecidableEq

/-- rotate3D from src/app/page.tsx: rotate around the Y axis (horizontal
orbit), then around the X axis (vertical tilt). -/
def rotate3D (x y z : ℚ) (t : Trig) : Vec3 :=
  let x1 := x * t.cosY - z * t.sinY
  let z1 := z * t.cosY + x * t.sinY
  let y2 := y * t.cosX - z1 * t.sinX
  let z2 := z1 * t.cosX + y * t.sinX
  { x := x1, y := y2, z := z2 }

/-- The focal length constant PROJECT_FL. -/
def PROJECT_FL : ℚ := 800

/-- The per-frame projection of one node inside the animate loop: rotate the
world position, perspective-divide with the 1000 offset guarding the
denominator, and store the screen position, scale and depth in the render
cache of the node. -/
def projectNode (zoom : ℚ) (t : Trig) (cx cy : ℚ) (n : WordNode) : WordNode :=
  let rot := rotate3D n.x n.y n.z t
  let scale := (PROJECT_FL * zoom) / (PROJECT_FL * zoom - rot.z + 1000)
  { n with screenX := cx + rot.x * scale, screenY := cy + rot.y * scale,
           scale := scale, depth := rot.z }

/-- The state of the volumetric variant that the claims touch: the mutable
refs nodesRef/linksRef, the d3 simulation working set, the React render
state (setNodes runs every animation frame from nodesRef, setLinks only
inside addWord), the input box, the error banner, the loading flag and the
camera. -/
structure State where
  nodes : List WordNode
  links : List Connection
  simNodes : List WordNode
  simLinks : List Connection
  renderNodes : List WordNode
  renderLinks : List Connection
  inputText : String
  error : String
  loading : Bool
  camera : Camera
deriving DecidableEq

/-- The initial state of the volumetric component. -/
def init : State :=
  { nodes := [], links := [], simNodes := [], simLinks := [],
    renderNodes := [], renderLinks := [], inputText := "", error := "",
    loading := false, camera := { angleX := -(2/10), angleY := 0, zoom := 1 } }

/-- One pass of the animate render loop: the simulation ticks (advancing
only positions, which no claim concerns), every node of nodesRef gets its
render cache recomputed by the projection, and setNodes publishes a fresh
copy of nodesRef as the React render state.  cx and cy are the container
half-extents; t carries the trigonometric values of the current camera
angles. -/
def frame (t : Trig) (cx cy : ℚ) (s : State) : State :=
  let ns := s.nodes.map (projectNode s.camera.zoom t cx cy)
  { s with nodes := ns, simNodes := ns, renderNodes := ns }

/-- The synchronous prefix of addWord of the volumetric variant: the same
blank-input and case-insensitive duplicate guards as the planar variant. -/
def addWordStart (s : State) (text : String) : Planar.StartOutcome × State :=
  if trimEmpty text then
    (.emptyInput, s)
  else if s.nodes.any (fun w => decide (lowerKey w.text = lowerKey text)) then
    (.duplicate, { s with inputText := "" })
  else
    (.pendingEmbed, { s with loading := true, error := "" })

/-- The continuation of addWord of the volumetric variant after the awaited
provider call resolves: as in the planar variant but with topology cap 6,
the new node placed at the origin with a random depth z, and setLinks run
directly inside addWord. -/
def addWordResume (s : State) (text newId : String) (z : ℚ)
    (result : Except String (List ℚ)) : State :=
  match result with
  | .error _ => { s with error := "Failed to generate embedding.", loading := false }
  | .ok embedding =>
      let color := COLORS.getD (s.nodes.length % COLORS.length) ""
      let newWord : WordNode :=
        { id := newId, text := text, embedding := embedding, color := color,
          x := 0, y := 0, z := z }
      let conns := connectionsToMake 6 (sortCandidates (mkCandidates embedding s.nodes))
      let nodes' := s.nodes ++ [newWord]
      let links' := s.links ++ newLinks newId conns
      { s with nodes := nodes', links := links', simNodes := nodes',
               simLinks := links', renderLinks := links', inputText := "",
               loading := false }

/-- A whole volumetric addWord call with no operation interleaved during the
await; the Bool records whether the embedding provider was called. -/
def addWord (s : State) (text newId : String) (z : ℚ)
    (result : Except String (List ℚ)) : State × Bool :=
  match addWordStart s text with
  | (.pendingEmbed, s₁) => (addWordResume s₁ text newId z result, true)
  | (_, s₁) => (s₁, false)

/-- The Clear Universe button of the volumetric variant: its onClick runs
exactly setNodes([]) and setLinks([]), emptying only the React render state;
nodesRef, linksRef and the d3 simulation are not touched. -/
def clearUniverse (s : State) : State :=
  { s with renderNodes := [], renderLinks := [] }

/-- handleWheel of the volumetric variant: multiplicative zoom step 0.9 or
1.1 by wheel direction, clamped to [0.5, 3]. -/
def wheelZoom (deltaYpos : Bool) (z : ℚ) : ℚ :=
  let delta : ℚ := if deltaYpos then 9/10 else 11/10
  max (1/2) (min 3 (z * delta))

/-- Apply a finite sequence of wheel zoom events in order. -/
def applyWheels (ds : List Bool) (z : ℚ) : ℚ :=
  ds.foldl (fun acc d => wheelZoom d acc) z

/-- A link as rendered: the resolved endpoint nodes together with the weight
and identity key, produced by the visibleLinks memo. -/
structure RLink where
  source : WordNode
  target : WordNode
  similarity : ℚ
  id : String
deriving DecidableEq

/-- The body of the visibleLinks memo for one link: look both endpoint ids
up in the rendered node list and keep the link only when both resolve. -/
def resolveLink (ns : List WordNode) (l : Connection) : Option RLink :=
  match ns.find? (fun n => decide (n.id = l.source)),
        ns.find? (fun n => decide (n.id = l.target)) with
  | some a, some b => some { source := a, target := b, similarity := l.similarity, id := l.id }
  | _, _ => none

/-- visibleLinks: the rendered edge list, in the insertion order of the link
state, with unresolvable links dropped. -/
def visibleLinks (s : State) : List RLink :=
  s.renderLinks.filterMap (resolveLink s.renderNodes)

/-- The ordering used by sortedNodes, sort((a, b) => (a.depth || 0) -
(b.depth || 0)): ascending depth. -/
def depthRel : WordNode → WordNode → Prop :=
  fun a b => a.depth ≤ b.depth

instance : DecidableRel depthRel :=
  fun a b => inferInstanceAs (Decidable (a.depth ≤ b.depth))

instance : IsTotal WordNode depthRel :=
  ⟨fun a b => le_total a.depth b.depth⟩

instance : IsTrans WordNode depthRel :=
  ⟨fun _ _ _ hab hbc => le_trans hab hbc⟩

/-- sortedNodes: the rendered node list sorted ascending by cached depth
(back-to-front painter ordering), recomputed from the render state. -/
def sortedNodes (s : State) : List WordNode :=
  s.renderNodes.insertionSort depthRel

/-- Modelled from the spec: the depth key of a rendered edge for draw-order
purposes.  The source never computes a depth for an edge (its comment notes
the average depth idea and then simply draws all lines first); the spec
draw-order requirement for edges is stated against the average of the two
endpoint depths. -/
def specEdgeDepth (l : RLink) : ℚ :=
  (l.source.depth + l.target.depth) / 2

/-- Modelled from the spec: the draw-order requirement that the rendered
edge list follows ascending depth. -/
def specEdgesAscending (s : State) : Prop :=
  List.Chain' (fun a b => specEdgeDepth a ≤ specEdgeDepth b) (visibleLinks s)

end Vol

/-- C10: for every input string whose trimmed form is empty, addWord (in
both variants) returns immediately: the state is exactly unchanged (no node,
no edge, no error, input box untouched) and the embedding provider is not
called. -/
theorem claim10_blank_input_noop
    (s : Planar.State) (t : Vol.State) (text newId : String) (ix iy z : ℚ)
    (result : Except String (List ℚ)) (h : trimEmpty text = true) :
    Planar.addWord s text newId ix iy result = (s, false)
      ∧ Vol.addWord t text newId z result = (t, false) := by
  constructor
  · unfold Planar.addWord Planar.addWordStart
    simp [h]
  · unfold Vol.addWord Vol.addWordStart
    simp [h]

/-- Witness for C10 at the concrete whitespace-only input. -/
theorem claim10_blank_input_noop_witness :
    trimEmpty "  " = true
      ∧ Planar.addWord Planar.init "  " "1" 0 0 (Except.ok []) = (Planar.init, false) :=
  ⟨by decide,
   (claim10_blank_input_noop Planar.init Vol.init "  " "1" 0 0 0 (Except.ok []) (by decide)).1⟩

/-- C3: an input that matches an existing node text case-insensitively is a
no-op in both variants: the node and edge collections (refs, simulation
working set and render state) are unchanged, no error is raised, and the
embedding provider is not called. -/
theorem claim3_duplicate_noop
    (s : Planar.State) (t : Vol.State) (text newId : String) (ix iy z : ℚ)
    (result : Except String (List ℚ))
    (hp : ∃ w ∈ s.nodes, lowerKey w.text = lowerKey text)
    (hv : ∃ w ∈ t.nodes, lowerKey w.text = lowerKey text) :
    ((Planar.addWord s text newId ix iy result).1.nodes = s.nodes
      ∧ (Planar.addWord s text newId ix iy result).1.links = s.links
      ∧ (Planar.addWord s text newId ix iy result).1.simNodes = s.simNodes
      ∧ (Planar.addWord s text newId ix iy result).1.simLinks = s.simLinks
      ∧ (Planar.addWord s text newId ix iy result).1.error = s.error
      ∧ (Planar.addWord s text newId ix iy result).2 = false)
    ∧ ((Vol.addWord t text newId z result).1.nodes = t.nodes
      ∧ (Vol.addWord t text newId z result).1.links = t.links
      ∧ (Vol.addWord t text newId z result).1.simNodes = t.simNodes
      ∧ (Vol.addWord t text newId z result).1.simLinks = t.simLinks
      ∧ (Vol.addWord t text newId z result).1.error = t.error
      ∧ (Vol.addWord t text newId z result).2 = false) := by
  constructor
  · unfold Planar.addWord Planar.addWordStart
    by_cases hb : trimEmpty text = true
    · simp [hb]
    · have hany : (s.nodes.any fun w => decide (lowerKey w.text = lowerKey text)) = true := by
        rcases hp with ⟨w, hw, he⟩
        simp only [List.any_eq_true, decide_eq_true_eq]
        exact ⟨w, hw, he⟩
      simp [hb, hany]
  · unfold Vol.addWord Vol.addWordStart
    by_cases hb : trimEmpty text = true
    · simp [hb]
    · have hany : (t.nodes.any fun w => decide (lowerKey w.text = lowerKey text)) = true := by
        rcases hv with ⟨w, hw, he⟩
        simp only [List.any_eq_true, decide_eq_true_eq]
        exact ⟨w, hw, he⟩
      simp [hb, hany]

/-- Witness for C3: a concrete state holding the node cat and the duplicate
submission CAT. -/
theorem claim3_duplicate_noop_witness :
    (∃ w ∈ [({ id := "1", text := "cat", embedding := [], color := "" } : WordNode)],
        lowerKey w.text = lowerKey "CAT")
    ∧ (Planar.addWord
        { Planar.init with
            nodes := [{ id := "1", text := "cat", embedding := [], color := "" }] }
        "CAT" "2" 0 0 (Except.ok [])).2 = false :=
  ⟨⟨{ id := "1", text := "cat", embedding := [], color := "" },
     List.mem_cons_self _ _, by decide⟩,
   (claim3_duplicate_noop
      { Planar.init with
          nodes := [{ id := "1", text := "cat", embedding := [], color := "" }] }
      { Vol.init with
          nodes := [{ id := "1", text := "cat", embedding := [], color := "" }] }
      "CAT" "2" 0 0 0 (Except.ok [])
      ⟨{ id := "1", text := "cat", embedding := [], color := "" },
        List.mem_cons_self _ _, by decide⟩
      ⟨{ id := "1", text := "cat", embedding := [], color := "" },
        List.mem_cons_self _ _, by decide⟩).1.2.2.2.2.2⟩

/-- C5: when the embedding provider rejects, addWord leaves the node and
edge collections (refs and simulation working set) exactly as before the
call, sets the non-fatal error banner, and does not touch the camera or the
simulation energy. -/
theorem claim5_provider_failure_atomic
    (s : Planar.State) (t : Vol.State) (text newId : String) (ix iy z : ℚ) (msg : String)
    (hs : (Planar.addWordStart s text).1 = .pendingEmbed)
    (ht : (Vol.addWordStart t text).1 = .pendingEmbed) :
    ((Planar.addWord s text newId ix iy (Except.error msg)).1.nodes = s.nodes
      ∧ (Planar.addWord s text newId ix iy (Except.error msg)).1.links = s.links
      ∧ (Planar.addWord s text newId ix iy (Except.error msg)).1.simNodes = s.simNodes
      ∧ (Planar.addWord s text newId ix iy (Except.error msg)).1.simLinks = s.simLinks
      ∧ (Planar.addWord s text newId ix iy (Except.error msg)).1.error
          = "Failed to generate embedding."
      ∧ (Planar.addWord s text newId ix iy (Except.error msg)).1.loading = false
      ∧ (Planar.addWord s text newId ix iy (Except.error msg)).1.view = s.view
      ∧ (Planar.addWord s text newId ix iy (Except.error msg)).1.alpha = s.alpha)
    ∧ ((Vol.addWord t text newId z (Except.error msg)).1.nodes = t.nodes
      ∧ (Vol.addWord t text newId z (Except.error msg)).1.links = t.links
      ∧ (Vol.addWord t text newId z (Except.error msg)).1.simNodes = t.simNodes
      ∧ (Vol.addWord t text newId z (Except.error msg)).1.simLinks = t.simLinks
      ∧ (Vol.addWord t text newId z (Except.error msg)).1.error
          = "Failed to generate embedding."
      ∧ (Vol.addWord t text newId z (Except.error msg)).1.camera = t.camera) := by
  constructor
  · unfold Planar.addWord
    unfold Planar.addWordStart at hs ⊢
    by_cases h1 : trimEmpty text = true
    · simp [h1] at hs
    · by_cases h2 : (s.nodes.any fun w => decide (lowerKey w.text = lowerKey text)) = true
      · simp [h1, h2] at hs
      · simp [h1, h2, Planar.addWordResume]
  · unfold Vol.addWord
    unfold Vol.addWordStart at ht ⊢
    by_cases h1 : trimEmpty text = true
    · simp [h1] at ht
    · by_cases h2 : (t.nodes.any fun w => decide (lowerKey w.text = lowerKey text)) = true
      · simp [h1, h2] at ht
      · simp [h1, h2, Vol.addWordResume]

/-- Witness for C5 at a concrete fresh submission that the provider
rejects. -/
theorem claim5_provider_failure_atomic_witness :
    (Planar.addWordStart Planar.init "whale").1 = Planar.StartOutcome.pendingEmbed
      ∧ (Planar.addWord Planar.init "whale" "1" 0 0 (Except.error "oom")).1.nodes = []
      ∧ (Planar.addWord Planar.init "whale" "1" 0 0 (Except.error "oom")).1.error
          = "Failed to generate embedding." :=
  ⟨by decide,
   ((claim5_provider_failure_atomic Planar.init Vol.init "whale" "1" 0 0 0 "oom"
      (by decide) (by decide)).1).1,
   ((claim5_provider_failure_atomic Planar.init Vol.init "whale" "1" 0 0 0 "oom"
      (by decide) (by decide)).1).2.2.2.2.1⟩

/-- C2, code evaluation at the failing scenario: clearAll runs while an
addWord is awaiting the embedding provider; when the provider resolves, the
continuation pushes the new node into the freshly cleared refs, so the final
state holds 1 node instead of the required 0.  No generation guard exists at
the insertion point. -/
theorem claim2_stale_result_inserted :
    (Planar.addWordStart
        { Planar.init with
            nodes := [{ id := "1", text := "cat", embedding := [], color := "" }],
            simNodes := [{ id := "1", text := "cat", embedding := [], color := "" }] }
        "whale").1 = Planar.StartOutcome.pendingEmbed
    ∧ (Planar.clearAll 1000 800
        (Planar.addWordStart
          { Planar.init with
              nodes := [{ id := "1", text := "cat", embedding := [], color := "" }],
              simNodes := [{ id := "1", text := "cat", embedding := [], color := "" }] }
          "whale").2).nodes = []
    ∧ (Planar.addWordResume
        (Planar.clearAll 1000 800
          (Planar.addWordStart
            { Planar.init with
                nodes := [{ id := "1", text := "cat", embedding := [], color := "" }],
                simNodes := [{ id := "1", text := "cat", embedding := [], color := "" }] }
            "whale").2)
        "whale" "2" 0 0 (Except.ok [])).nodes.length = 1
    ∧ (Planar.addWordResume
        (Planar.clearAll 1000 800
          (Planar.addWordStart
            { Planar.init with
                nodes := [{ id := "1", text := "cat", embedding := [], color := "" }],
                simNodes := [{ id := "1", text := "cat", embedding := [], color := "" }] }
            "whale").2)
        "whale" "2" 0 0 (Except.ok [])).links = [] := by
  refine ⟨by decide, rfl, ?_, rfl⟩
  simp [Planar.addWordStart, Planar.clearAll, Planar.resetView, Planar.addWordResume]

/-- C7, code evaluation at the failing input: in the volumetric variant the
Clear Universe button empties only the React render state; nodesRef and the
simulation keep the node, and the next animation frame republishes it, so
the cleared node reappears. -/
theorem claim7_clear_button_nodes_reappear :
    ((Vol.clearUniverse
        { Vol.init with
            nodes := [{ id := "1", text := "cat", embedding := [], color := "" }],
            simNodes := [{ id := "1", text := "cat", embedding := [], color := "" }],
            renderNodes := [{ id := "1", text := "cat", embedding := [], color := "" }] }).renderNodes
        = [])
    ∧ ((Vol.clearUniverse
        { Vol.init with
            nodes := [{ id := "1", text := "cat", embedding := [], color := "" }],
            simNodes := [{ id := "1", text := "cat", embedding := [], color := "" }],
            renderNodes := [{ id := "1", text := "cat", embedding := [], color := "" }] }).nodes.length
        = 1)
    ∧ ((Vol.frame { cosX := 1, sinX := 0, cosY := 1, sinY := 0 } 500 400
        (Vol.clearUniverse
          { Vol.init with
              nodes := [{ id := "1", text := "cat", embedding := [], color := "" }],
              simNodes := [{ id := "1", text := "cat", embedding := [], color := "" }],
              renderNodes := [{ id := "1", text := "cat", embedding := [], color := "" }] })).renderNodes.length
        = 1) := by
  refine ⟨rfl, rfl, ?_⟩
  simp [Vol.frame, Vol.clearUniverse]

/-- C6 as amended: wheel zoom events always clamp, so any finite sequence of
wheel zoom-in/zoom-out events keeps the planar scale inside [0.1, 4] and the
volumetric zoom inside [0.5, 3], from any in-bounds start.  (The planar
ZoomIn button is excluded: it multiplies the scale by 1.2 without clamping,
see the counterexample.) -/
theorem claim6_wheel_zoom_bounded :
    (∀ (ds : List Bool) (cw ch : ℚ) (v : Planar.ViewState),
        1/10 ≤ v.scale → v.scale ≤ 4 →
        1/10 ≤ (Planar.applyZooms cw ch (ds.map Planar.ZoomEvent.wheel) v).scale
          ∧ (Planar.applyZooms cw ch (ds.map Planar.ZoomEvent.wheel) v).scale ≤ 4)
    ∧ (∀ (ds : List Bool) (z : ℚ), 1/2 ≤ z → z ≤ 3 →
        1/2 ≤ Vol.applyWheels ds z ∧ Vol.applyWheels ds z ≤ 3) := by
  constructor
  · intro ds
    induction ds with
    | nil =>
        intro cw ch v h1 h2
        exact ⟨h1, h2⟩
    | cons d ds ih =>
        intro cw ch v h1 h2
        have hstep : Planar.applyZooms cw ch ((d :: ds).map Planar.ZoomEvent.wheel) v
            = Planar.applyZooms cw ch (ds.map Planar.ZoomEvent.wheel)
                (Planar.handleWheel d cw ch v) := rfl
        rw [hstep]
        apply ih
        · exact le_max_left _ _
        · exact max_le (by norm_num) (min_le_left _ _)
  · intro ds
    induction ds with
    | nil =>
        intro z h1 h2
        exact ⟨h1, h2⟩
    | cons d ds ih =>
        intro z h1 h2
        have hstep : Vol.applyWheels (d :: ds) z = Vol.applyWheels ds (Vol.wheelZoom d z) := rfl
        rw [hstep]
        apply ih
        · exact le_max_left _ _
        · exact max_le (by norm_num) (min_le_left _ _)

/-- Witness for C6 as amended: a concrete wheel sequence from the in-bounds
starting scale 1 stays inside the bounds. -/
theorem claim6_wheel_zoom_bounded_witness :
    ((1 : ℚ)/10 ≤ 1 ∧ (1 : ℚ) ≤ 4)
      ∧ (1/10 ≤ (Planar.applyZooms 1000 800
            ([true, false, false].map Planar.ZoomEvent.wheel)
            { x := 0, y := 0, scale := 1 }).scale
        ∧ (Planar.applyZooms 1000 800
            ([true, false, false].map Planar.ZoomEvent.wheel)
            { x := 0, y := 0, scale := 1 }).scale ≤ 4) :=
  ⟨⟨by norm_num, by norm_num⟩,
   claim6_wheel_zoom_bounded.1 [true, false, false] 1000 800
     { x := 0, y := 0, scale := 1 } (by norm_num) (by norm_num)⟩

/-- C6 counterexample against the claim as stated: the ZoomIn button of the
planar variant is a zoom event that multiplies the scale by 1.2 with no
clamp, so a single press starting from the in-bounds scale 4 leaves the
configured range [0.1, 4]. -/
theorem claim6_zoom_button_unclamped_cex :
    ((1 : ℚ)/10 ≤ 4 ∧ (4 : ℚ) ≤ 4)
      ∧ (Planar.applyZooms 1000 800 [Planar.ZoomEvent.button]
          { x := 0, y := 0, scale := 4 }).scale = 24/5
      ∧ ¬ (Planar.applyZooms 1000 800 [Planar.ZoomEvent.button]
          { x := 0, y := 0, scale := 4 }).scale ≤ 4 := by
  refine ⟨⟨by norm_num, le_refl _⟩, ?_, ?_⟩
  · show (4 : ℚ) * (6/5) = 24/5
    norm_num
  · show ¬ (4 : ℚ) * (6/5) ≤ 4
    norm_num

/-- Helper: the rank filter of the topology builder keeps at most cap minus
k entries of a candidate list enumerated from k, because every kept entry
has rank below cap. -/
theorem aux_length_filter_connPred_le (cap : ℕ) :
    ∀ (l : List Candidate) (k : ℕ),
      ((List.enumFrom k l).filter (connPred cap)).length ≤ cap - k := by
  intro l
  induction l with
  | nil => intro k; simp
  | cons a l ih =>
      intro k
      rw [List.enumFrom_cons]
      by_cases h : connPred cap (k, a) = true
      · have hk : k < cap := by
          have h' := h
          simp only [connPred, Bool.and_eq_true, decide_eq_true_eq] at h'
          exact h'.2
        rw [List.filter_cons_of_pos h]
        have := ih (k + 1)
        simp only [List.length_cons]
        omega
      · rw [List.filter_cons_of_neg (by simpa using h)]
        have := ih (k + 1)
        omega

/-- Helper: when the cap is at least 3 and the sorted candidate list has at
least 3 entries, the top three ranks all pass the filter, so at least 3
connections are made. -/
theorem aux_three_le_length_connectionsToMake (cap : ℕ) (hcap : 3 ≤ cap) :
    ∀ (sorted : List Candidate), 3 ≤ sorted.length →
      3 ≤ (connectionsToMake cap sorted).length := by
  intro sorted h3
  match sorted, h3 with
  | a :: b :: c :: rest, _ =>
      unfold connectionsToMake
      rw [List.length_map]
      have h0 : connPred cap (0, a) = true := by
        simp only [connPred, Bool.and_eq_true, Bool.or_eq_true, decide_eq_true_eq]
        omega
      have h1 : connPred cap (1, b) = true := by
        simp only [connPred, Bool.and_eq_true, Bool.or_eq_true, decide_eq_true_eq]
        omega
      have h2 : connPred cap (2, c) = true := by
        simp only [connPred, Bool.and_eq_true, Bool.or_eq_true, decide_eq_true_eq]
        omega
      simp only [List.enum, List.enumFrom_cons, List.filter_cons_of_pos h0,
        List.filter_cons_of_pos h1, List.filter_cons_of_pos h2, List.length_cons]
      omega

/-- C4: the topology builder returns at most cap edges; whenever the cap is
at least 3 (it is 6 or 8 in the two variants) and at least 3 nodes exist it
returns at least 3 edges; and on an empty existing node set it returns no
edges. -/
theorem claim4_topology_size_bounds (cap : ℕ) (embedding : List ℚ) (existing : List WordNode) :
    (connectionsToMake cap (sortCandidates (mkCandidates embedding existing))).length ≤ cap
    ∧ (3 ≤ cap → 3 ≤ existing.length →
        3 ≤ (connectionsToMake cap (sortCandidates (mkCandidates embedding existing))).length)
    ∧ (existing = [] → connectionsToMake cap (sortCandidates (mkCandidates embedding existing)) = []) := by
  refine ⟨?_, ?_, ?_⟩
  · unfold connectionsToMake
    rw [List.length_map]
    have := aux_length_filter_connPred_le cap
      (sortCandidates (mkCandidates embedding existing)) 0
    simpa [List.enum] using this
  · intro hcap hlen
    apply aux_three_le_length_connectionsToMake cap hcap
    rw [sortCandidates, List.length_insertionSort, mkCandidates, List.length_map]
    exact hlen
  · intro h
    subst h
    rfl

/-- Witness for C4 at a concrete three-node universe with cap 6. -/
theorem claim4_topology_size_bounds_witness :
    ((3 : ℕ) ≤ 6
      ∧ 3 ≤ [({ id := "1", text := "a", embedding := [], color := "" } : WordNode),
             { id := "2", text := "b", embedding := [], color := "" },
             { id := "3", text := "c", embedding := [], color := "" }].length)
    ∧ 3 ≤ (connectionsToMake 6 (sortCandidates (mkCandidates []
            [({ id := "1", text := "a", embedding := [], color := "" } : WordNode),
             { id := "2", text := "b", embedding := [], color := "" },
             { id := "3", text := "c", embedding := [], color := "" }]))).length
    ∧ (connectionsToMake 6 (sortCandidates (mkCandidates []
            [({ id := "1", text := "a", embedding := [], color := "" } : WordNode),
             { id := "2", text := "b", embedding := [], color := "" },
             { id := "3", text := "c", embedding := [], color := "" }]))).length ≤ 6 :=
  ⟨⟨by decide, by decide⟩,
   (claim4_topology_size_bounds 6 []
      [{ id := "1", text := "a", embedding := [], color := "" },
       { id := "2", text := "b", embedding := [], color := "" },
       { id := "3", text := "c", embedding := [], color := "" }]).2.1 (by decide) (by decide),
   (claim4_topology_size_bounds 6 []
      [{ id := "1", text := "a", embedding := [], color := "" },
       { id := "2", text := "b", embedding := [], color := "" },
       { id := "3", text := "c", embedding := [], color := "" }]).1⟩

/-- Helper: stability of the candidate sort.  For every similarity value v,
the candidates of similarity v appear in the sorted list exactly in their
original (insertion) order: filtering the sorted list at v gives back the
filtered input list. -/
theorem aux_sortCandidates_stable (cands : List Candidate) (v : ℚ) :
    (sortCandidates cands).filter (fun c => decide (c.similarity = v))
      = cands.filter (fun c => decide (c.similarity = v)) := by
  set p : Candidate → Bool := fun c => decide (c.similarity = v) with hp
  have hA : (cands.filter p).Pairwise candRel := by
    apply List.pairwise_of_forall_mem_list
    intro a ha b hb
    have ha' : a.similarity = v := by
      have := (List.mem_filter.mp ha).2
      simpa [hp] using this
    have hb' : b.similarity = v := by
      have := (List.mem_filter.mp hb).2
      simpa [hp] using this
    unfold candRel
    rw [ha', hb']
  have h1 : List.Sublist (cands.filter p) (sortCandidates cands) :=
    List.sublist_insertionSort hA (List.filter_sublist cands)
  have h2 : List.Sublist ((cands.filter p).filter p) ((sortCandidates cands).filter p) :=
    List.Sublist.filter p h1
  have h3 : (cands.filter p).filter p = cands.filter p := by
    apply List.filter_eq_self.mpr
    intro a ha
    exact (List.mem_filter.mp ha).2
  rw [h3] at h2
  have h4 : ((sortCandidates cands).filter p).Perm (cands.filter p) :=
    List.Perm.filter p (List.perm_insertionSort candRel cands)
  exact ((List.Sublist.eq_of_length h2 h4.length_eq.symm).symm)

/-- C9: the topology builder is deterministic (a pure function of the new
embedding and the existing node list), the candidate sort is descending in
similarity, it permutes the candidate list, and equal-similarity candidates
keep their insertion order (stability). -/
theorem claim9_topology_deterministic_stable
    (cap : ℕ) (emb emb' : List ℚ) (existing existing' : List WordNode) (newId : String)
    (he : emb = emb') (hx : existing = existing') :
    newLinks newId (connectionsToMake cap (sortCandidates (mkCandidates emb existing)))
        = newLinks newId (connectionsToMake cap (sortCandidates (mkCandidates emb' existing')))
    ∧ List.Sorted candRel (sortCandidates (mkCandidates emb existing))
    ∧ (sortCandidates (mkCandidates emb existing)).Perm (mkCandidates emb existing)
    ∧ (∀ v : ℚ,
        (sortCandidates (mkCandidates emb existing)).filter (fun c => decide (c.similarity = v))
          = (mkCandidates emb existing).filter (fun c => decide (c.similarity = v))) := by
  subst he
  subst hx
  exact ⟨rfl, List.sorted_insertionSort candRel _, List.perm_insertionSort candRel _,
    fun v => aux_sortCandidates_stable (mkCandidates emb existing) v⟩

/-- Witness for C9 at a concrete input (two identical runs over a one-node
universe). -/
theorem claim9_topology_deterministic_stable_witness :
    newLinks "9" (connectionsToMake 6 (sortCandidates (mkCandidates []
        [({ id := "1", text := "a", embedding := [], color := "" } : WordNode)])))
      = newLinks "9" (connectionsToMake 6 (sortCandidates (mkCandidates []
        [({ id := "1", text := "a", embedding := [], color := "" } : WordNode)])))
    ∧ List.Sorted candRel (sortCandidates (mkCandidates []
        [({ id := "1", text := "a", embedding := [], color := "" } : WordNode)])) :=
  ⟨(claim9_topology_deterministic_stable 6 [] []
      [{ id := "1", text := "a", embedding := [], color := "" }]
      [{ id := "1", text := "a", embedding := [], color := "" }] "9" rfl rfl).1,
   (claim9_topology_deterministic_stable 6 [] []
      [{ id := "1", text := "a", embedding := [], color := "" }]
      [{ id := "1", text := "a", embedding := [], color := "" }] "9" rfl rfl).2.1⟩

/-- Helper: every candidate selected by the topology builder originates from
an existing node, with its similarity computed against that node at creation
time. -/
theorem aux_newLinks_weights (emb : List ℚ) (newId : String) (cap : ℕ)
    (nodes : List WordNode) :
    ∀ l ∈ newLinks newId (connectionsToMake cap (sortCandidates (mkCandidates emb nodes))),
      ∃ n ∈ nodes, l.source = n.id ∧ l.target = newId
        ∧ l.similarity = cosineSimilarity emb n.embedding := by
  intro l hl
  obtain ⟨c, hc, rfl⟩ := List.mem_map.mp hl
  obtain ⟨p, hp, hsnd⟩ := List.mem_map.mp hc
  have hpe : p ∈ (sortCandidates (mkCandidates emb nodes)).enum :=
    (List.mem_filter.mp hp).1
  have hcs : c ∈ sortCandidates (mkCandidates emb nodes) := by
    obtain ⟨i, c'⟩ := p
    obtain ⟨hlt, hceq⟩ := List.mem_enum hpe
    cases hsnd
    rw [hceq]
    exact List.getElem_mem hlt
  have hcm : c ∈ mkCandidates emb nodes :=
    (List.mem_insertionSort candRel).mp hcs
  obtain ⟨n, hn, hmk⟩ := List.mem_map.mp hcm
  refine ⟨n, hn, ?_, rfl, ?_⟩
  · rw [← hmk]
  · rw [← hmk]

/-- C1: on a successful addWord over a fresh text, the link list is extended
by exactly the links of the topology builder (cap 8 planar, cap 6
volumetric); a sorted candidate at 0-based rank i survives the selection
filter exactly when (i is below 3 or its similarity exceeds 0.45) and i is
below the cap; and every created edge carries as weight the cosine
similarity against its existing endpoint computed at creation time. -/
theorem claim1_addWord_edge_selection
    (s : Planar.State) (t : Vol.State) (text newId : String) (ix iy zr : ℚ) (emb : List ℚ)
    (hs : (Planar.addWordStart s text).1 = Planar.StartOutcome.pendingEmbed)
    (ht : (Vol.addWordStart t text).1 = Planar.StartOutcome.pendingEmbed)
    (_hns : s.nodes ≠ []) (_hnt : t.nodes ≠ []) :
    ((Planar.addWord s text newId ix iy (Except.ok emb)).1.links
        = s.links ++ newLinks newId (connectionsToMake 8 (sortCandidates (mkCandidates emb s.nodes))))
    ∧ ((Vol.addWord t text newId zr (Except.ok emb)).1.links
        = t.links ++ newLinks newId (connectionsToMake 6 (sortCandidates (mkCandidates emb t.nodes))))
    ∧ (∀ (cap : ℕ) (nodes : List WordNode) (i : ℕ) (c : Candidate),
        (i, c) ∈ (sortCandidates (mkCandidates emb nodes)).enum →
          ((i, c) ∈ (sortCandidates (mkCandidates emb nodes)).enum.filter (connPred cap)
            ↔ ((i < 3 ∨ (45 : ℚ)/100 < c.similarity) ∧ i < cap)))
    ∧ (∀ (cap : ℕ) (nodes : List WordNode),
        ∀ l ∈ newLinks newId (connectionsToMake cap (sortCandidates (mkCandidates emb nodes))),
          ∃ n ∈ nodes, l.source = n.id ∧ l.target = newId
            ∧ l.similarity = cosineSimilarity emb n.embedding) := by
  refine ⟨?_, ?_, ?_, fun cap nodes => aux_newLinks_weights emb newId cap nodes⟩
  · unfold Planar.addWord
    unfold Planar.addWordStart at hs ⊢
    by_cases h1 : trimEmpty text = true
    · simp [h1] at hs
    · by_cases h2 : (s.nodes.any fun w => decide (lowerKey w.text = lowerKey text)) = true
      · simp [h1, h2] at hs
      · simp [h1, h2, Planar.addWordResume]
  · unfold Vol.addWord
    unfold Vol.addWordStart at ht ⊢
    by_cases h1 : trimEmpty text = true
    · simp [h1] at ht
    · by_cases h2 : (t.nodes.any fun w => decide (lowerKey w.text = lowerKey text)) = true
      · simp [h1, h2] at ht
      · simp [h1, h2, Vol.addWordResume]
  · intro cap nodes i c hmem
    simp [List.mem_filter, hmem, connPred]

/-- Witness for C1: a concrete one-node universe and the fresh submission
dog. -/
theorem claim1_addWord_edge_selection_witness :
    (Planar.addWordStart
        { Planar.init with
            nodes := [{ id := "1", text := "cat", embedding := [], color := "" }] }
        "dog").1 = Planar.StartOutcome.pendingEmbed
    ∧ (Planar.addWord
        { Planar.init with
            nodes := [{ id := "1", text := "cat", embedding := [], color := "" }] }
        "dog" "2" 0 0 (Except.ok [])).1.links
        = ({ Planar.init with
              nodes := [{ id := "1", text := "cat", embedding := [], color := "" }] }
            : Planar.State).links
          ++ newLinks "2" (connectionsToMake 8 (sortCandidates (mkCandidates []
              [{ id := "1", text := "cat", embedding := [], color := "" }]))) :=
  ⟨by decide,
   (claim1_addWord_edge_selection
      { Planar.init with
          nodes := [{ id := "1", text := "cat", embedding := [], color := "" }] }
      { Vol.init with
          nodes := [{ id := "1", text := "cat", embedding := [], color := "" }] }
      "dog" "2" 0 0 0 [] (by decide) (by decide)
      (List.cons_ne_nil _ _) (List.cons_ne_nil _ _)).1⟩

/-- Helper: the rendered edge list preserves the insertion order of the link
state; visibleLinks only drops unresolvable links and keeps the identity key
of each kept link. -/
theorem aux_visibleLinks_ids (ns : List WordNode) :
    ∀ l : List Connection,
      List.Sublist ((l.filterMap (Vol.resolveLink ns)).map Vol.RLink.id)
        (l.map Connection.id) := by
  intro l
  induction l with
  | nil => simp
  | cons a l ih =>
      simp only [List.filterMap_cons, List.map_cons]
      cases hfs : ns.find? (fun n => decide (n.id = a.source)) with
      | none =>
          have hr : Vol.resolveLink ns a = none := by
            unfold Vol.resolveLink
            rw [hfs]
          rw [hr]
          exact List.Sublist.cons a.id ih
      | some na =>
          cases hft : ns.find? (fun n => decide (n.id = a.target)) with
          | none =>
              have hr : Vol.resolveLink ns a = none := by
                unfold Vol.resolveLink
                rw [hfs, hft]
              rw [hr]
              exact List.Sublist.cons a.id ih
          | some nb =>
              have hr : Vol.resolveLink ns a
                  = some { source := na, target := nb,
                           similarity := a.similarity, id := a.id } := by
                unfold Vol.resolveLink
                rw [hfs, hft]
              rw [hr]
              simp only [List.map_cons]
              exact List.Sublist.cons₂ a.id ih

/-- C8 as amended: on every frame and for every choice of camera angle
trigonometry, the rendered node list is sorted by non-decreasing rotated
depth (back-to-front painter ordering); the rendered edge list, however, is
drawn before all nodes in link insertion order (it is the id-preserving
restriction of the link state to resolvable links), not in depth order. -/
theorem claim8_node_depth_order (t : Vol.Trig) (cx cy : ℚ) (s : Vol.State) :
    List.Sorted Vol.depthRel (Vol.sortedNodes (Vol.frame t cx cy s))
    ∧ List.Sublist ((Vol.visibleLinks (Vol.frame t cx cy s)).map Vol.RLink.id)
        ((Vol.frame t cx cy s).renderLinks.map Connection.id) :=
  ⟨List.sorted_insertionSort Vol.depthRel _,
   aux_visibleLinks_ids (Vol.frame t cx cy s).renderNodes (Vol.frame t cx cy s).renderLinks⟩

/-- C8 counterexample against the claim as stated: the volumetric variant
draws edges in link insertion order, not in ascending depth.  With the
identity camera trigonometry, four nodes at depths 20, 0, -20, 0 and the two
links 1-2 and 3-4, the rendered edge depth sequence is 10 followed by -10,
which is not non-decreasing. -/
theorem claim8_edges_not_depth_sorted_cex :
    ((Vol.visibleLinks (Vol.frame { cosX := 1, sinX := 0, cosY := 1, sinY := 0 } 0 0
        { Vol.init with
            nodes := [{ id := "1", text := "a", embedding := [], color := "", z := 20 },
                      { id := "2", text := "b", embedding := [], color := "", z := 0 },
                      { id := "3", text := "c", embedding := [], color := "", z := -20 },
                      { id := "4", text := "d", embedding := [], color := "", z := 0 }],
            links := [{ source := "1", target := "2", similarity := 1, id := "1-2" },
                      { source := "3", target := "4", similarity := 1, id := "3-4" }],
            renderNodes := [{ id := "1", text := "a", embedding := [], color := "", z := 20 },
                      { id := "2", text := "b", embedding := [], color := "", z := 0 },
                      { id := "3", text := "c", embedding := [], color := "", z := -20 },
                      { id := "4", text := "d", embedding := [], color := "", z := 0 }],
            renderLinks := [{ source := "1", target := "2", similarity := 1, id := "1-2" },
                      { source := "3", target := "4", similarity := 1, id := "3-4" }] })).map
        Vol.specEdgeDepth = [10, -10])
    ∧ ¬ Vol.specEdgesAscending (Vol.frame { cosX := 1, sinX := 0, cosY := 1, sinY := 0 } 0 0
        { Vol.init with
            nodes := [{ id := "1", text := "a", embedding := [], color := "", z := 20 },
                      { id := "2", text := "b", embedding := [], color := "", z := 0 },
                      { id := "3", text := "c", embedding := [], color := "", z := -20 },
                      { id := "4", text := "d", embedding := [], color := "", z := 0 }],
            links := [{ source := "1", target := "2", similarity := 1, id := "1-2" },
                      { source := "3", target := "4", similarity := 1, id := "3-4" }],
            renderNodes := [{ id := "1", text := "a", embedding := [], color := "", z := 20 },
                      { id := "2", text := "b", embedding := [], color := "", z := 0 },
                      { id := "3", text := "c", embedding := [], color := "", z := -20 },
                      { id := "4", text := "d", embedding := [], color := "", z := 0 }],
            renderLinks := [{ source := "1", target := "2", similarity := 1, id := "1-2" },
                      { source := "3", target := "4", similarity := 1, id := "3-4" }] }) := by
  have d11 : (decide (("1" : String) = "1")) = true := by decide
  have d12 : (decide (("1" : String) = "2")) = false := by decide
  have d22 : (decide (("2" : String) = "2")) = true := by decide
  have d13 : (decide (("1" : String) = "3")) = false := by decide
  have d23 : (decide (("2" : String) = "3")) = false := by decide
  have d33 : (decide (("3" : String) = "3")) = true := by decide
  have d14 : (decide (("1" : String) = "4")) = false := by decide
  have d24 : (decide (("2" : String) = "4")) = false := by decide
  have d34 : (decide (("3" : String) = "4")) = false := by decide
  have d44 : (decide (("4" : String) = "4")) = true := by decide
  constructor
  · simp only [Vol.frame, Vol.visibleLinks, Vol.resolveLink, Vol.projectNode, Vol.rotate3D,
      Vol.init, Vol.PROJECT_FL, List.map_cons, List.map_nil,
      List.filterMap_cons, List.filterMap_nil, List.find?,
      d11, d12, d22, d13, d23, d33, d14, d24, d34, d44]
    norm_num [Vol.specEdgeDepth]
  · simp only [Vol.specEdgesAscending, Vol.frame, Vol.visibleLinks, Vol.resolveLink,
      Vol.projectNode, Vol.rotate3D, Vol.init, Vol.PROJECT_FL,
      List.map_cons, List.map_nil, List.filterMap_cons, List.filterMap_nil, List.find?,
      d11, d12, d22, d13, d23, d33, d14, d24, d34, d44,
      List.chain'_cons, List.chain'_singleton]
    norm_num [Vol.specEdgeDepth]
